import Mathlib

/-!
Shallow embedding of `src/contracts/DACVRegistry.sol` (Solidity 0.8, OpenZeppelin
Ownable + Pausable + ReentrancyGuard).

Modelling choices:
* Addresses and `bytes32` values are `Nat` (`0` stands for `address(0)`).
* Solidity mappings are total functions with the zero-initialized record as the
  default value, updated pointwise by `upd`.
* `block.timestamp` and `msg.sender` are explicit arguments of each call.
* `keccak256(abi.encodePacked(...))` appears in two shapes in the contract
  (credential-ID derivation over a 5-tuple, and the hash over `_ipfsHash`).
  The contract relies on no algebraic property of keccak (a derived-ID clash is
  handled by the explicit existence check), so both are carried as parameters in
  a `HashEnv`; theorems hold for every instantiation.
* Each `require` failure / custom-error revert aborts the call with a named
  failure kind, and under the EVM's all-or-nothing call semantics the pre-call
  state persists; `exec` encodes exactly that commit discipline.  Revert-reason
  strings are mapped onto the spec's failure kinds (`"Not an authorized
  issuer"`/`"Issuer is not active"`/Ownable's owner check ↦ `Unauthorized`,
  `"Credential does not exist"` ↦ `NotFound`, `"Issuer already exists"` /
  `"Credential already exists"` ↦ `AlreadyExists`, the empty-input and
  zero-address checks ↦ `InvalidInput`, Pausable's `whenNotPaused` ↦
  `SystemPaused`, `"Already revoked"` ↦ `AlreadyRevoked`; Pausable's checks
  inside `_pause`/`_unpause` keep their own kinds).
* `nonReentrant` is invisible in a single-call model; events are not modelled
  (no claim is about the event log).
-/

namespace DACV

/-- `struct Credential` of DACVRegistry.sol (field `exists` is `exists_`,
`exists` being reserved in Lean). -/
structure Credential where
  credentialHash : Nat
  ipfsHash : String
  issuer : Nat
  student : Nat
  credentialType : String
  issueDate : Nat
  expiryDate : Nat
  isRevoked : Bool
  exists_ : Bool
deriving Repr, DecidableEq

/-- `struct Issuer` of DACVRegistry.sol. -/
structure Issuer where
  name : String
  country : String
  isActive : Bool
  registrationDate : Nat
  credentialsIssued : Nat
deriving Repr, DecidableEq

/-- Zero-initialized mapping default for `Credential`. -/
def emptyCredential : Credential :=
  { credentialHash := 0, ipfsHash := "", issuer := 0, student := 0
    credentialType := "", issueDate := 0, expiryDate := 0
    isRevoked := false, exists_ := false }

/-- Zero-initialized mapping default for `Issuer`. -/
def emptyIssuer : Issuer :=
  { name := "", country := "", isActive := false
    registrationDate := 0, credentialsIssued := 0 }

/-- The contract's named failure kinds (see the module header for the mapping
from revert reasons). -/
inductive Err where
  | Unauthorized
  | NotFound
  | AlreadyExists
  | InvalidInput
  | SystemPaused
  | AlreadyRevoked
  | EnforcedPause
  | ExpectedPause
deriving Repr, DecidableEq

/-- Contract storage: `owner` (Ownable), `paused` (Pausable) and the five
declared mappings. -/
structure State where
  owner : Nat
  paused : Bool
  credentials : Nat → Credential
  issuers : Nat → Issuer
  authorizedIssuers : Nat → Bool
  studentCredentials : Nat → List Nat
  issuerCredentials : Nat → List Nat

/-- Pointwise mapping update, `m[k] = v`. -/
def upd {α : Type} (f : Nat → α) (k : Nat) (v : α) : Nat → α :=
  fun k' => if k' = k then v else f k'

/-- The two shapes of `keccak256(abi.encodePacked(...))` used by the contract:
`idHash` over `(msg.sender, _student, _ipfsHash, _credentialType,
block.timestamp)` and `contentHash` over `_ipfsHash`. -/
structure HashEnv where
  idHash : Nat → Nat → String → String → Nat → Nat
  contentHash : String → Nat

/-- `addIssuer(_issuer, _name, _country)`: `onlyOwner`, then the zero-address,
empty-name and `!authorizedIssuers[_issuer]` requires, then the two writes. -/
def addIssuer (s : State) (sender now issuer : Nat) (name country : String) :
    Except Err State :=
  if sender ≠ s.owner then .error .Unauthorized
  else if issuer = 0 then .error .InvalidInput
  else if name.length = 0 then .error .InvalidInput
  else if s.authorizedIssuers issuer then .error .AlreadyExists
  else .ok { s with
    authorizedIssuers := upd s.authorizedIssuers issuer true
    issuers := upd s.issuers issuer
      { name := name, country := country, isActive := true
        registrationDate := now, credentialsIssued := 0 } }

/-- `removeIssuer(_issuer)`: `onlyOwner`, require `authorizedIssuers[_issuer]`,
then flip the authorization and the `isActive` flag (soft delete). -/
def removeIssuer (s : State) (sender issuer : Nat) : Except Err State :=
  if sender ≠ s.owner then .error .Unauthorized
  else if ¬ s.authorizedIssuers issuer then .error .NotFound
  else .ok { s with
    authorizedIssuers := upd s.authorizedIssuers issuer false
    issuers := upd s.issuers issuer { s.issuers issuer with isActive := false } }

/-- `issueCredential(_student, _ipfsHash, _credentialType, _expiryDate)`:
modifiers `onlyAuthorizedIssuer` then `whenNotPaused` (in declaration order),
the three input requires, ID derivation, the collision require, then the
record write, the two index pushes and the counter increment. -/
def issueCredential (env : HashEnv) (s : State)
    (sender now student : Nat) (ipfsHash credentialType : String)
    (expiryDate : Nat) : Except Err (State × Nat) :=
  if ¬ s.authorizedIssuers sender then .error .Unauthorized
  else if ¬ (s.issuers sender).isActive then .error .Unauthorized
  else if s.paused then .error .SystemPaused
  else if student = 0 then .error .InvalidInput
  else if ipfsHash.length = 0 then .error .InvalidInput
  else if credentialType.length = 0 then .error .InvalidInput
  else
    let credentialId := env.idHash sender student ipfsHash credentialType now
    if (s.credentials credentialId).exists_ then .error .AlreadyExists
    else .ok ({ s with
      credentials := upd s.credentials credentialId
        { credentialHash := env.contentHash ipfsHash
          ipfsHash := ipfsHash, issuer := sender, student := student
          credentialType := credentialType, issueDate := now
          expiryDate := expiryDate, isRevoked := false, exists_ := true }
      studentCredentials := upd s.studentCredentials student
        (s.studentCredentials student ++ [credentialId])
      issuerCredentials := upd s.issuerCredentials sender
        (s.issuerCredentials sender ++ [credentialId])
      issuers := upd s.issuers sender
        { s.issuers sender with
          credentialsIssued := (s.issuers sender).credentialsIssued + 1 } },
      credentialId)

/-- `revokeCredential(_credentialId)`: modifiers `credentialExists` then
`whenNotPaused`, the issuer-or-owner require, the `!isRevoked` require, then
the single flag write. -/
def revokeCredential (s : State) (sender id : Nat) : Except Err State :=
  if ¬ (s.credentials id).exists_ then .error .NotFound
  else if s.paused then .error .SystemPaused
  else if ¬ ((s.credentials id).issuer = sender ∨ sender = s.owner) then
    .error .Unauthorized
  else if (s.credentials id).isRevoked then .error .AlreadyRevoked
  else .ok { s with
    credentials := upd s.credentials id
      { s.credentials id with isRevoked := true } }

/-- The tuple `verifyCredential` returns. -/
structure VerifyResult where
  isValid : Bool
  issuer : Nat
  student : Nat
  credentialType : String
  issueDate : Nat
  expiryDate : Nat
  isRevoked : Bool
deriving Repr, DecidableEq

/-- `verifyCredential(_credentialId)` (view): modifier `credentialExists`, then
`expired = cred.expiryDate > 0 && block.timestamp > cred.expiryDate` and
`isValid = !cred.isRevoked && !expired && authorizedIssuers[cred.issuer]`,
computed live from current storage. -/
def verifyCredential (s : State) (now id : Nat) : Except Err VerifyResult :=
  if ¬ (s.credentials id).exists_ then .error .NotFound
  else
    let cred := s.credentials id
    let expired := decide (0 < cred.expiryDate) && decide (cred.expiryDate < now)
    let isValid := !cred.isRevoked && !expired && s.authorizedIssuers cred.issuer
    .ok { isValid := isValid, issuer := cred.issuer, student := cred.student
          credentialType := cred.credentialType, issueDate := cred.issueDate
          expiryDate := cred.expiryDate, isRevoked := cred.isRevoked }

/-- `getStudentCredentials(_student)` (view). -/
def getStudentCredentials (s : State) (student : Nat) : List Nat :=
  s.studentCredentials student

/-- `getIssuerCredentials(_issuer)` (view). -/
def getIssuerCredentials (s : State) (issuer : Nat) : List Nat :=
  s.issuerCredentials issuer

/-- `pause()`: `onlyOwner`, then OpenZeppelin `_pause` (which itself requires
not paused). -/
def pause (s : State) (sender : Nat) : Except Err State :=
  if sender ≠ s.owner then .error .Unauthorized
  else if s.paused then .error .EnforcedPause
  else .ok { s with paused := true }

/-- `unpause()`: `onlyOwner`, then OpenZeppelin `_unpause` (which itself
requires paused). -/
def unpause (s : State) (sender : Nat) : Except Err State :=
  if sender ≠ s.owner then .error .Unauthorized
  else if ¬ s.paused then .error .ExpectedPause
  else .ok { s with paused := false }

/-- One external mutating call, with its caller and (where the body reads it)
the block timestamp. -/
inductive Op where
  | addIssuer (sender now issuer : Nat) (name country : String)
  | removeIssuer (sender issuer : Nat)
  | issueCredential (sender now student : Nat)
      (ipfsHash credentialType : String) (expiryDate : Nat)
  | revokeCredential (sender id : Nat)
  | pause (sender : Nat)
  | unpause (sender : Nat)

/-- Outcome of one mutating call: the post-state on success, the failure kind
on revert. -/
def step (env : HashEnv) (s : State) : Op → Except Err State
  | .addIssuer sender now issuer name country =>
      addIssuer s sender now issuer name country
  | .removeIssuer sender issuer => removeIssuer s sender issuer
  | .issueCredential sender now student ipfsHash credentialType expiryDate =>
      (issueCredential env s sender now student ipfsHash credentialType
        expiryDate).map Prod.fst
  | .revokeCredential sender id => revokeCredential s sender id
  | .pause sender => pause s sender
  | .unpause sender => unpause s sender

/-- Committed state after one call under the host's all-or-nothing semantics:
a revert leaves the pre-call state. -/
def exec (env : HashEnv) (s : State) (op : Op) : State :=
  match step env s op with
  | .ok s' => s'
  | .error _ => s

/-- Committed state after a sequence of calls. -/
def execList (env : HashEnv) (s : State) (ops : List Op) : State :=
  ops.foldl (exec env) s

/-! ### Concrete test fixtures (used by witnesses and counterexamples) -/

/-- A concrete hash environment for evaluation; the theorems below hold for
every `HashEnv`. -/
def wEnv : HashEnv :=
  { idHash := fun sender student h t now =>
      sender * 1000000 + student * 10000 + h.length * 1000 + t.length * 100 + now
    contentHash := fun h => h.length }

/-- Concrete credential `100`: issued by `2` to `3`, no expiry, not revoked. -/
def wCred0 : Credential :=
  { credentialHash := 7, ipfsHash := "QmA", issuer := 2, student := 3
    credentialType := "BSc", issueDate := 10, expiryDate := 0
    isRevoked := false, exists_ := true }

/-- Concrete credential `101`: issued by `2` to `3`, expiry `50`, not revoked. -/
def wCred1 : Credential :=
  { credentialHash := 8, ipfsHash := "QmB", issuer := 2, student := 3
    credentialType := "MSc", issueDate := 10, expiryDate := 50
    isRevoked := false, exists_ := true }

/-- Concrete credential `102`: issued by `2` to `3`, no expiry, revoked. -/
def wCred2 : Credential :=
  { credentialHash := 9, ipfsHash := "QmC", issuer := 2, student := 3
    credentialType := "PhD", issueDate := 10, expiryDate := 0
    isRevoked := true, exists_ := true }

/-- Concrete registry state: owner `1`, active authorized issuer `2`, the three
credentials above, not paused. -/
def ws : State :=
  { owner := 1, paused := false
    credentials :=
      upd (upd (upd (fun _ => emptyCredential) 100 wCred0) 101 wCred1) 102 wCred2
    issuers := upd (fun _ => emptyIssuer) 2
      { name := "Uni", country := "IN", isActive := true
        registrationDate := 5, credentialsIssued := 3 }
    authorizedIssuers := upd (fun _ => false) 2 true
    studentCredentials := upd (fun _ => []) 3 [100, 101, 102]
    issuerCredentials := upd (fun _ => []) 2 [100, 101, 102] }

/-- `ws` with the pause switch engaged. -/
def wsPaused : State := { ws with paused := true }

/-! ### Shared reduction lemmas -/

@[simp] theorem upd_same {α : Type} (f : Nat → α) (k : Nat) (v : α) :
    upd f k v k = v := by
  simp [upd]

theorem upd_other {α : Type} (f : Nat → α) (k k' : Nat) (v : α) (h : k' ≠ k) :
    upd f k v k' = f k' := by
  simp [upd, h]

/-- On an existing credential, `verifyCredential` succeeds and returns exactly
the stored fields together with the live-computed validity bit. -/
theorem verifyCredential_reduce (s : State) (now id : Nat)
    (hex : (s.credentials id).exists_ = true) :
    verifyCredential s now id = .ok
      { isValid := !(s.credentials id).isRevoked
          && !(decide (0 < (s.credentials id).expiryDate)
               && decide ((s.credentials id).expiryDate < now))
          && s.authorizedIssuers (s.credentials id).issuer
        issuer := (s.credentials id).issuer
        student := (s.credentials id).student
        credentialType := (s.credentials id).credentialType
        issueDate := (s.credentials id).issueDate
        expiryDate := (s.credentials id).expiryDate
        isRevoked := (s.credentials id).isRevoked } := by
  simp [verifyCredential, hex]

/-! ### Claims -/

/-- C1: `verifyCredential` fails `NotFound` exactly when no record with the
given ID exists; otherwise it returns the stored issuer, subject, type, issue
date, expiry date and revoked flag, and `isValid` holds exactly when the
credential is not revoked, not expired (expiry `0` never expires, otherwise
expired means strictly past the expiry), and its issuer is currently
authorized — all recomputed from current storage, there being no stored
validity field to read. -/
theorem verifyCredential_correct (s : State) (now id : Nat) :
    (verifyCredential s now id = .error .NotFound ↔
      (s.credentials id).exists_ = false)
    ∧ ((s.credentials id).exists_ = true →
        ∃ r, verifyCredential s now id = .ok r
          ∧ r.issuer = (s.credentials id).issuer
          ∧ r.student = (s.credentials id).student
          ∧ r.credentialType = (s.credentials id).credentialType
          ∧ r.issueDate = (s.credentials id).issueDate
          ∧ r.expiryDate = (s.credentials id).expiryDate
          ∧ r.isRevoked = (s.credentials id).isRevoked
          ∧ (r.isValid = true ↔
              ((s.credentials id).isRevoked = false
               ∧ ((s.credentials id).expiryDate = 0
                  ∨ now ≤ (s.credentials id).expiryDate)
               ∧ s.authorizedIssuers (s.credentials id).issuer = true))) := by
  constructor
  · cases hex : (s.credentials id).exists_ <;> simp [verifyCredential, hex]
  · intro hex
    refine ⟨_, verifyCredential_reduce s now id hex, rfl, rfl, rfl, rfl, rfl, rfl, ?_⟩
    simp only [Bool.and_eq_true, Bool.not_eq_true', decide_eq_true_iff]
    constructor
    · rintro ⟨⟨h1, h2⟩, h3⟩
      refine ⟨h1, ?_, h3⟩
      rcases Bool.and_eq_false_iff.mp h2 with h | h <;>
        simp only [decide_eq_false_iff_not, not_lt, Nat.lt_iff_add_one_le] at h <;>
        omega
    · rintro ⟨h1, h2, h3⟩
      refine ⟨⟨h1, ?_⟩, h3⟩
      rcases h2 with h | h <;> simp [h]

/-- C1 witness: on the concrete state `ws`, ID `999` is absent and fails
`NotFound`, while ID `100` exists and is returned with its stored fields. -/
theorem verifyCredential_correct_witness :
    (ws.credentials 999).exists_ = false
    ∧ (verifyCredential ws 20 999 = .error .NotFound ↔
        (ws.credentials 999).exists_ = false)
    ∧ (ws.credentials 100).exists_ = true
    ∧ (∃ r, verifyCredential ws 20 100 = .ok r
        ∧ r.issuer = (ws.credentials 100).issuer
        ∧ r.student = (ws.credentials 100).student
        ∧ r.credentialType = (ws.credentials 100).credentialType
        ∧ r.issueDate = (ws.credentials 100).issueDate
        ∧ r.expiryDate = (ws.credentials 100).expiryDate
        ∧ r.isRevoked = (ws.credentials 100).isRevoked
        ∧ (r.isValid = true ↔
            ((ws.credentials 100).isRevoked = false
             ∧ ((ws.credentials 100).expiryDate = 0
                ∨ 20 ≤ (ws.credentials 100).expiryDate)
             ∧ ws.authorizedIssuers (ws.credentials 100).issuer = true))) :=
  ⟨rfl, (verifyCredential_correct ws 20 999).1, rfl,
    (verifyCredential_correct ws 20 100).2 rfl⟩

/-- C9: for an existing credential with non-zero expiry, the expiry comparison
is strict (`block.timestamp > cred.expiryDate`): at any time up to and
including the expiry timestamp the credential is not expired, so `isValid`
reduces to the revocation and authorization checks alone (and can still be
`true` at the precise expiry instant); at any strictly later time `isValid` is
`false`. -/
theorem verify_at_expiry_instant (s : State) (id : Nat)
    (hex : (s.credentials id).exists_ = true)
    (hpos : (s.credentials id).expiryDate ≠ 0) :
    (∀ now, now ≤ (s.credentials id).expiryDate →
      ∃ r, verifyCredential s now id = .ok r
        ∧ r.isValid = (!(s.credentials id).isRevoked
            && s.authorizedIssuers (s.credentials id).issuer))
    ∧ (∀ now, (s.credentials id).expiryDate < now →
      ∃ r, verifyCredential s now id = .ok r ∧ r.isValid = false) := by
  constructor
  · intro now hnow
    refine ⟨_, verifyCredential_reduce s now id hex, ?_⟩
    simp [decide_eq_false (Nat.not_lt.mpr hnow)]
  · intro now hnow
    refine ⟨_, verifyCredential_reduce s now id hex, ?_⟩
    simp [decide_eq_true hnow, decide_eq_true (Nat.pos_of_ne_zero hpos)]

/-- C9 witness: credential `101` of `ws` expires at `50`; verifying at `50`
still yields `isValid = true`, verifying at `51` yields `isValid = false`. -/
theorem verify_at_expiry_instant_witness :
    (ws.credentials 101).exists_ = true
    ∧ (ws.credentials 101).expiryDate ≠ 0
    ∧ (∃ r, verifyCredential ws 50 101 = .ok r
        ∧ r.isValid = (!(ws.credentials 101).isRevoked
            && ws.authorizedIssuers (ws.credentials 101).issuer))
    ∧ (∃ r, verifyCredential ws 51 101 = .ok r ∧ r.isValid = false) :=
  ⟨rfl, by decide,
    (verify_at_expiry_instant ws 101 rfl (by decide)).1 50 (by decide),
    (verify_at_expiry_instant ws 101 rfl (by decide)).2 51 (by decide)⟩

/-- Reduction of a successful `issueCredential` call: all preconditions hold
and the derived ID is fresh, so the call commits exactly the record write, the
two index appends and the counter increment, and returns the derived ID. -/
theorem issueCredential_reduce (env : HashEnv) (s : State)
    (sender now student expiryDate : Nat) (ipfsHash credentialType : String)
    (hauth : s.authorizedIssuers sender = true)
    (hact : (s.issuers sender).isActive = true)
    (hp : s.paused = false)
    (hst : student ≠ 0)
    (hih : ipfsHash.length ≠ 0)
    (hct : credentialType.length ≠ 0)
    (hnex : (s.credentials
      (env.idHash sender student ipfsHash credentialType now)).exists_ = false) :
    issueCredential env s sender now student ipfsHash credentialType expiryDate
      = .ok ({ s with
          credentials := upd s.credentials
            (env.idHash sender student ipfsHash credentialType now)
            { credentialHash := env.contentHash ipfsHash
              ipfsHash := ipfsHash, issuer := sender, student := student
              credentialType := credentialType, issueDate := now
              expiryDate := expiryDate, isRevoked := false, exists_ := true }
          studentCredentials := upd s.studentCredentials student
            (s.studentCredentials student
              ++ [env.idHash sender student ipfsHash credentialType now])
          issuerCredentials := upd s.issuerCredentials sender
            (s.issuerCredentials sender
              ++ [env.idHash sender student ipfsHash credentialType now])
          issuers := upd s.issuers sender
            { s.issuers sender with
              credentialsIssued := (s.issuers sender).credentialsIssued + 1 } },
        env.idHash sender student ipfsHash credentialType now) := by
  simp [issueCredential, hauth, hact, hp, hst, hih, hct, hnex]

/-- C2: under its preconditions (active authorized caller, system not paused,
non-empty subject, content reference and type), `issueCredential` with a fresh
derived ID persists exactly the given fields, appends the ID to the subject
and issuer indices, increments the issuer's issued-count and returns the ID;
with an already-present derived ID it fails `AlreadyExists` and the existing
record is untouched. -/
theorem issueCredential_correct (env : HashEnv) (s : State)
    (sender now student expiryDate cid : Nat)
    (ipfsHash credentialType : String)
    (hcid : cid = env.idHash sender student ipfsHash credentialType now)
    (hauth : s.authorizedIssuers sender = true)
    (hact : (s.issuers sender).isActive = true)
    (hp : s.paused = false)
    (hst : student ≠ 0)
    (hih : ipfsHash.length ≠ 0)
    (hct : credentialType.length ≠ 0) :
    ((s.credentials cid).exists_ = false →
      ∃ s', issueCredential env s sender now student ipfsHash credentialType
              expiryDate = .ok (s', cid)
        ∧ s'.credentials cid =
            { credentialHash := env.contentHash ipfsHash
              ipfsHash := ipfsHash, issuer := sender, student := student
              credentialType := credentialType, issueDate := now
              expiryDate := expiryDate, isRevoked := false, exists_ := true }
        ∧ s'.studentCredentials student = s.studentCredentials student ++ [cid]
        ∧ s'.issuerCredentials sender = s.issuerCredentials sender ++ [cid]
        ∧ (s'.issuers sender).credentialsIssued
            = (s.issuers sender).credentialsIssued + 1)
    ∧ ((s.credentials cid).exists_ = true →
      issueCredential env s sender now student ipfsHash credentialType
          expiryDate = .error .AlreadyExists
      ∧ (exec env s
          (.issueCredential sender now student ipfsHash credentialType
            expiryDate)).credentials cid = s.credentials cid) := by
  subst hcid
  constructor
  · intro hnex
    exact ⟨_, issueCredential_reduce env s sender now student expiryDate
        ipfsHash credentialType hauth hact hp hst hih hct hnex,
      by simp, by simp, by simp, by simp⟩
  · intro hex
    have herr : issueCredential env s sender now student ipfsHash
        credentialType expiryDate = .error .AlreadyExists := by
      simp [issueCredential, hauth, hact, hp, hst, hih, hct, hex]
    exact ⟨herr, by simp [exec, step, herr, Except.map]⟩

/-- A hash environment that sends every tuple to ID `100` (used to exercise
the duplicate-derived-ID branch). -/
def wEnvClash : HashEnv :=
  { idHash := fun _ _ _ _ _ => 100, contentHash := fun h => h.length }

/-- C2 witness: on `ws`, issuer `2` issuing to student `4` with the fresh
derived ID `2043311` commits the record and indices; under `wEnvClash` the
derived ID `100` already exists and the call fails `AlreadyExists`. -/
theorem issueCredential_correct_witness :
    ws.authorizedIssuers 2 = true
    ∧ (ws.issuers 2).isActive = true
    ∧ ws.paused = false
    ∧ (2043311 : Nat) = wEnv.idHash 2 4 "QmD" "Dip" 11
    ∧ (ws.credentials 2043311).exists_ = false
    ∧ (∃ s', issueCredential wEnv ws 2 11 4 "QmD" "Dip" 0 = .ok (s', 2043311)
        ∧ s'.credentials 2043311 =
            { credentialHash := wEnv.contentHash "QmD"
              ipfsHash := "QmD", issuer := 2, student := 4
              credentialType := "Dip", issueDate := 11
              expiryDate := 0, isRevoked := false, exists_ := true }
        ∧ s'.studentCredentials 4 = ws.studentCredentials 4 ++ [2043311]
        ∧ s'.issuerCredentials 2 = ws.issuerCredentials 2 ++ [2043311]
        ∧ (s'.issuers 2).credentialsIssued
            = (ws.issuers 2).credentialsIssued + 1)
    ∧ (ws.credentials (100 : Nat)).exists_ = true
    ∧ (issueCredential wEnvClash ws 2 11 4 "QmD" "Dip" 0
          = .error .AlreadyExists
        ∧ (exec wEnvClash ws
            (.issueCredential 2 11 4 "QmD" "Dip" 0)).credentials 100
          = ws.credentials 100) :=
  ⟨rfl, rfl, rfl, by decide, rfl,
    (issueCredential_correct wEnv ws 2 11 4 0 2043311 "QmD" "Dip" (by decide)
      rfl rfl rfl (by decide) (by decide) (by decide)).1 rfl,
    rfl,
    (issueCredential_correct wEnvClash ws 2 11 4 0 100 "QmD" "Dip" (by decide)
      rfl rfl rfl (by decide) (by decide) (by decide)).2 rfl⟩

/-- An existing revoked credential stays existing and revoked across any
single committed call: no operation of the contract resets the flag, and the
collision check prevents `issueCredential` from overwriting the record. -/
theorem revokedExists_preserved (env : HashEnv) (s : State) (id : Nat)
    (op : Op)
    (hex : (s.credentials id).exists_ = true)
    (hrev : (s.credentials id).isRevoked = true) :
    ((exec env s op).credentials id).exists_ = true
    ∧ ((exec env s op).credentials id).isRevoked = true := by
  cases op with
  | addIssuer sender now issuer name country =>
      simp only [exec, step, addIssuer]
      split_ifs <;> simp [hex, hrev]
  | removeIssuer sender issuer =>
      simp only [exec, step, removeIssuer]
      split_ifs <;> simp [hex, hrev]
  | pause sender =>
      simp only [exec, step, pause]
      split_ifs <;> simp [hex, hrev]
  | unpause sender =>
      simp only [exec, step, unpause]
      split_ifs <;> simp [hex, hrev]
  | issueCredential sender now student ipfsHash credentialType expiryDate =>
      simp only [exec, step, issueCredential]
      split_ifs with h1 h2 h3 h4 h5 h6 h7 <;>
        try simp [Except.map, hex, hrev]
      have hne : id ≠ env.idHash sender student ipfsHash credentialType now := by
        intro he
        rw [← he] at h7
        exact h7 hex
      simp [Except.map, upd_other _ _ _ _ hne, hex, hrev]
  | revokeCredential sender cid =>
      simp only [exec, step, revokeCredential]
      split_ifs with h1 h2 h3 h4 <;> try simp [hex, hrev]
      by_cases hc : id = cid
      · subst hc
        exact absurd hrev h4
      · simp [upd_other _ _ _ _ hc, hex, hrev]

/-- An existing revoked credential stays existing and revoked across any
sequence of committed calls. -/
theorem revokedExists_preserved_list (env : HashEnv) (s : State) (id : Nat)
    (ops : List Op)
    (hex : (s.credentials id).exists_ = true)
    (hrev : (s.credentials id).isRevoked = true) :
    ((execList env s ops).credentials id).exists_ = true
    ∧ ((execList env s ops).credentials id).isRevoked = true := by
  induction ops generalizing s with
  | nil => exact ⟨hex, hrev⟩
  | cons op ops ih =>
      have h := revokedExists_preserved env s id op hex hrev
      simpa [execList] using ih (exec env s op) h.1 h.2

/-- C3: the revoked flag only transitions false → true.  `revokeCredential` on
an existing non-revoked credential (by an eligible caller, system not paused)
sets `isRevoked = true`; an immediate second revoke by the same caller fails
`AlreadyRevoked`; once revoked, the flag survives every subsequent sequence of
contract calls and every subsequent `verifyCredential` reports
`isValid = false`. -/
theorem revocation_one_way (env : HashEnv) (s : State) (id sender : Nat)
    (hex : (s.credentials id).exists_ = true) :
    ((s.credentials id).isRevoked = false → s.paused = false →
      ((s.credentials id).issuer = sender ∨ sender = s.owner) →
      ∃ s', revokeCredential s sender id = .ok s'
        ∧ (s'.credentials id).isRevoked = true
        ∧ (s'.credentials id).exists_ = true
        ∧ revokeCredential s' sender id = .error .AlreadyRevoked)
    ∧ ((s.credentials id).isRevoked = true →
      ∀ ops : List Op,
        ((execList env s ops).credentials id).isRevoked = true
        ∧ ∀ now r, verifyCredential (execList env s ops) now id = .ok r →
            r.isValid = false) := by
  constructor
  · intro hnr hp helig
    refine ⟨{ s with credentials :=
        (upd s.credentials id { s.credentials id with isRevoked := true }) },
      ?_, by simp, by simp [hex], ?_⟩
    · rcases helig with h | h <;> simp [revokeCredential, hex, hp, hnr, h]
    · rcases helig with h | h <;> simp [revokeCredential, hex, hp, h]
  · intro hrev ops
    obtain ⟨hex', hrev'⟩ :=
      revokedExists_preserved_list env s id ops hex hrev
    refine ⟨hrev', ?_⟩
    intro now r hr
    rw [verifyCredential_reduce _ _ _ hex'] at hr
    cases hr
    simp [hrev']

/-- C3 witness: in `ws`, issuer `2` revokes credential `100`; the flag flips,
a second attempt fails `AlreadyRevoked`; the already-revoked credential `102`
stays revoked after a further call and verifies with `isValid = false`. -/
theorem revocation_one_way_witness :
    (ws.credentials 100).exists_ = true
    ∧ (ws.credentials 100).isRevoked = false
    ∧ ws.paused = false
    ∧ ((ws.credentials 100).issuer = 2 ∨ (2 : Nat) = ws.owner)
    ∧ (∃ s', revokeCredential ws 2 100 = .ok s'
        ∧ (s'.credentials 100).isRevoked = true
        ∧ (s'.credentials 100).exists_ = true
        ∧ revokeCredential s' 2 100 = .error .AlreadyRevoked)
    ∧ (ws.credentials 102).isRevoked = true
    ∧ (((execList wEnv ws [.pause 1]).credentials 102).isRevoked = true
        ∧ ∀ now r, verifyCredential (execList wEnv ws [.pause 1]) now 102
            = .ok r → r.isValid = false) :=
  ⟨rfl, rfl, rfl, Or.inl rfl,
    (revocation_one_way wEnv ws 100 2 rfl).1 rfl rfl (Or.inl rfl),
    rfl,
    (revocation_one_way wEnv ws 102 2 rfl).2 rfl [.pause 1]⟩

/-- C4: a mutating call that reverts with any failure kind commits nothing:
each `require` precedes every storage write in the contract and the host's
call semantics are all-or-nothing, so the committed state after a failing
`addIssuer`, `removeIssuer`, `issueCredential`, `revokeCredential`, `pause`
or `unpause` agrees with the pre-call state on every mapping, every counter
and the pause flag. -/
theorem failing_call_commits_nothing (env : HashEnv) (s : State) (op : Op)
    (e : Err) (h : step env s op = .error e) :
    (exec env s op).credentials = s.credentials
    ∧ (exec env s op).issuers = s.issuers
    ∧ (exec env s op).authorizedIssuers = s.authorizedIssuers
    ∧ (exec env s op).studentCredentials = s.studentCredentials
    ∧ (exec env s op).issuerCredentials = s.issuerCredentials
    ∧ (exec env s op).paused = s.paused
    ∧ (exec env s op).owner = s.owner := by
  simp [exec, h]

/-- C4 witness: a non-owner `pause` call on `ws` fails `Unauthorized` and
leaves every component of the state unchanged. -/
theorem failing_call_commits_nothing_witness :
    step wEnv ws (.pause 9) = .error .Unauthorized
    ∧ ((exec wEnv ws (.pause 9)).credentials = ws.credentials
      ∧ (exec wEnv ws (.pause 9)).issuers = ws.issuers
      ∧ (exec wEnv ws (.pause 9)).authorizedIssuers = ws.authorizedIssuers
      ∧ (exec wEnv ws (.pause 9)).studentCredentials = ws.studentCredentials
      ∧ (exec wEnv ws (.pause 9)).issuerCredentials = ws.issuerCredentials
      ∧ (exec wEnv ws (.pause 9)).paused = ws.paused
      ∧ (exec wEnv ws (.pause 9)).owner = ws.owner) :=
  ⟨rfl, failing_call_commits_nothing wEnv ws (.pause 9) .Unauthorized rfl⟩

/-- Empty registry owned by `1`. -/
def cs0 : State :=
  { owner := 1, paused := false, credentials := fun _ => emptyCredential
    issuers := fun _ => emptyIssuer, authorizedIssuers := fun _ => false
    studentCredentials := fun _ => [], issuerCredentials := fun _ => [] }

/-- `cs0` after the owner registers issuer `2`. -/
def cs1 : State := exec wEnv cs0 (.addIssuer 1 10 2 "A" "X")

/-- `cs1` after the owner deactivates issuer `2`. -/
def cs2 : State := exec wEnv cs1 (.removeIssuer 1 2)

/-- `cs2` after the owner re-registers issuer `2`. -/
def cs3 : State := exec wEnv cs2 (.addIssuer 1 20 2 "B" "Y")

/-- C5 counterexample: identity `2` is registered via `addIssuer`, then
soft-deactivated via `removeIssuer`; the subsequent `addIssuer(2, "B", "Y")`
does not fail `AlreadyExists` — it succeeds and re-registers `2`, because the
existence check reads `authorizedIssuers`, which `removeIssuer` reset. -/
theorem addIssuer_after_remove_succeeds :
    step wEnv cs0 (.addIssuer 1 10 2 "A" "X") = .ok cs1
    ∧ cs1.authorizedIssuers 2 = true
    ∧ step wEnv cs1 (.removeIssuer 1 2) = .ok cs2
    ∧ cs2.authorizedIssuers 2 = false
    ∧ addIssuer cs2 1 20 2 "B" "Y" ≠ .error .AlreadyExists
    ∧ step wEnv cs2 (.addIssuer 1 20 2 "B" "Y") = .ok cs3
    ∧ cs3.authorizedIssuers 2 = true :=
  ⟨rfl, rfl, rfl, rfl, fun h => Except.noConfusion h, rfl, rfl⟩

/-- C5 amended: `addIssuer(id, name, country)` fails `AlreadyExists` exactly
when `id` is *currently* authorized (given an owner caller and valid inputs,
which are checked first); an identity deactivated by `removeIssuer` no longer
blocks, so it can be re-registered even though it was registered before. -/
theorem addIssuer_alreadyExists_iff (s : State) (sender now issuer : Nat)
    (name country : String) :
    (addIssuer s sender now issuer name country = .error .AlreadyExists ↔
      (sender = s.owner ∧ issuer ≠ 0 ∧ name.length ≠ 0
       ∧ s.authorizedIssuers issuer = true))
    ∧ (sender = s.owner → issuer ≠ 0 → name.length ≠ 0 →
      s.authorizedIssuers issuer = false →
      ∃ s', addIssuer s sender now issuer name country = .ok s'
        ∧ s'.authorizedIssuers issuer = true) := by
  constructor
  · unfold addIssuer
    split_ifs with h1 h2 h3 h4 <;> simp_all
  · intro h1 h2 h3 h4
    refine ⟨{ s with
        authorizedIssuers := upd s.authorizedIssuers issuer true
        issuers := (upd s.issuers issuer
          { name := name, country := country, isActive := true
            registrationDate := now, credentialsIssued := 0 }) }, ?_, by simp⟩
    simp [addIssuer, h1, h2, h3, h4]

/-- C5 amended witness: on the concrete post-removal state `cs2`, the
`AlreadyExists` characterization is instantiated and the re-registration of
identity `2` succeeds. -/
theorem addIssuer_alreadyExists_iff_witness :
    (addIssuer cs2 1 20 2 "B" "Y" = .error .AlreadyExists ↔
      ((1 : Nat) = cs2.owner ∧ (2 : Nat) ≠ 0 ∧ "B".length ≠ 0
       ∧ cs2.authorizedIssuers 2 = true))
    ∧ (1 : Nat) = cs2.owner
    ∧ cs2.authorizedIssuers 2 = false
    ∧ (∃ s', addIssuer cs2 1 20 2 "B" "Y" = .ok s'
        ∧ s'.authorizedIssuers 2 = true) :=
  ⟨(addIssuer_alreadyExists_iff cs2 1 20 2 "B" "Y").1, rfl, rfl,
    (addIssuer_alreadyExists_iff cs2 1 20 2 "B" "Y").2 rfl (by decide)
      (by decide) rfl⟩

/-- C6 counterexample: with the system paused, an `issueCredential` call from
the unauthorized caller `5` fails `Unauthorized`, not `SystemPaused` — the
`onlyAuthorizedIssuer` modifier runs before `whenNotPaused` — refuting "every
call to issueCredential fails SystemPaused while paused". -/
theorem paused_issue_not_systemPaused :
    wsPaused.paused = true
    ∧ issueCredential wEnv wsPaused 5 11 4 "Qm" "T" 0 = .error .Unauthorized
    ∧ issueCredential wEnv wsPaused 5 11 4 "Qm" "T" 0
        ≠ .error .SystemPaused :=
  ⟨rfl, rfl, fun h => Err.noConfusion (Except.error.inj h)⟩

/-- C6 amended: while paused, no issuance and no revocation succeeds; a call
that passes the checks that run before the pause gate fails `SystemPaused`
(an active authorized caller on `issueCredential`, an existing credential on
`revokeCredential`), while other failing calls report the earlier check's
failure kind; `verifyCredential` on any existing credential still succeeds. -/
theorem paused_gating (env : HashEnv) (s : State) (hp : s.paused = true) :
    (∀ sender now student expiryDate, ∀ ipfsHash credentialType : String,
      s.authorizedIssuers sender = true → (s.issuers sender).isActive = true →
      issueCredential env s sender now student ipfsHash credentialType
        expiryDate = .error .SystemPaused)
    ∧ (∀ sender id, (s.credentials id).exists_ = true →
      revokeCredential s sender id = .error .SystemPaused)
    ∧ (∀ sender now student expiryDate, ∀ ipfsHash credentialType : String,
      (issueCredential env s sender now student ipfsHash credentialType
        expiryDate).isOk = false)
    ∧ (∀ sender id, (revokeCredential s sender id).isOk = false)
    ∧ (∀ now id, (s.credentials id).exists_ = true →
      ∃ r, verifyCredential s now id = .ok r) := by
  refine ⟨?_, ?_, ?_, ?_, ?_⟩
  · intro sender now student expiryDate ipfsHash credentialType hauth hact
    simp [issueCredential, hauth, hact, hp]
  · intro sender id hex
    simp [revokeCredential, hex, hp]
  · intro sender now student expiryDate ipfsHash credentialType
    unfold issueCredential
    split_ifs <;> simp_all [Except.isOk, Except.toBool]
  · intro sender id
    unfold revokeCredential
    split_ifs <;> simp_all [Except.isOk, Except.toBool]
  · intro now id hex
    exact ⟨_, verifyCredential_reduce s now id hex⟩

/-- C6 amended witness: on the paused state `wsPaused`, the active authorized
issuer `2` fails `SystemPaused` on issuance, revoking the existing credential
`100` fails `SystemPaused`, unauthorized issuance does not succeed either, and
verifying credential `100` still succeeds. -/
theorem paused_gating_witness :
    wsPaused.paused = true
    ∧ wsPaused.authorizedIssuers 2 = true
    ∧ (wsPaused.issuers 2).isActive = true
    ∧ issueCredential wEnv wsPaused 2 11 4 "Qm" "T" 0
        = .error .SystemPaused
    ∧ (wsPaused.credentials 100).exists_ = true
    ∧ revokeCredential wsPaused 2 100 = .error .SystemPaused
    ∧ (issueCredential wEnv wsPaused 5 11 4 "Qm" "T" 0).isOk = false
    ∧ (revokeCredential wsPaused 5 100).isOk = false
    ∧ (∃ r, verifyCredential wsPaused 20 100 = .ok r) :=
  ⟨rfl, rfl, rfl,
    (paused_gating wEnv wsPaused rfl).1 2 11 4 0 "Qm" "T" rfl rfl,
    rfl,
    (paused_gating wEnv wsPaused rfl).2.1 2 100 rfl,
    (paused_gating wEnv wsPaused rfl).2.2.1 5 11 4 0 "Qm" "T",
    (paused_gating wEnv wsPaused rfl).2.2.2.1 5 100,
    (paused_gating wEnv wsPaused rfl).2.2.2.2 20 100 rfl⟩

/-- Reduction of a successful `removeIssuer` call. -/
theorem removeIssuer_reduce (s : State) (sender id : Nat)
    (hown : sender = s.owner) (hreg : s.authorizedIssuers id = true) :
    removeIssuer s sender id = .ok { s with
      authorizedIssuers := (upd s.authorizedIssuers id false)
      issuers := (upd s.issuers id
        { s.issuers id with isActive := false }) } := by
  simp [removeIssuer, hown, hreg]

/-- Reduction of a successful `addIssuer` call. -/
theorem addIssuer_reduce (s : State) (sender now issuer : Nat)
    (name country : String)
    (hown : sender = s.owner) (hid : issuer ≠ 0) (hname : name.length ≠ 0)
    (hnreg : s.authorizedIssuers issuer = false) :
    addIssuer s sender now issuer name country = .ok { s with
      authorizedIssuers := (upd s.authorizedIssuers issuer true)
      issuers := (upd s.issuers issuer
        { name := name, country := country, isActive := true
          registrationDate := now, credentialsIssued := 0 }) } := by
  simp [addIssuer, hown, hid, hname, hnreg]

/-- C7: `removeIssuer` by the owner on a registered issuer flips exactly that
issuer's authorization and active flag: credentials, both indices, the pause
flag, the owner, every other issuer entry and the issuer's remaining fields
are untouched, and every existing credential recorded as issued by that
issuer subsequently verifies with `isValid = false`. -/
theorem removeIssuer_deauthorizes (s : State) (sender id : Nat)
    (hown : sender = s.owner) (hreg : s.authorizedIssuers id = true) :
    ∃ s', removeIssuer s sender id = .ok s'
      ∧ s'.authorizedIssuers id = false
      ∧ (s'.issuers id).isActive = false
      ∧ s'.credentials = s.credentials
      ∧ s'.studentCredentials = s.studentCredentials
      ∧ s'.issuerCredentials = s.issuerCredentials
      ∧ s'.paused = s.paused
      ∧ s'.owner = s.owner
      ∧ (∀ a, a ≠ id → s'.authorizedIssuers a = s.authorizedIssuers a
          ∧ s'.issuers a = s.issuers a)
      ∧ (s'.issuers id).name = (s.issuers id).name
      ∧ (s'.issuers id).country = (s.issuers id).country
      ∧ (s'.issuers id).registrationDate = (s.issuers id).registrationDate
      ∧ (s'.issuers id).credentialsIssued = (s.issuers id).credentialsIssued
      ∧ (∀ now cid, (s.credentials cid).exists_ = true →
          (s.credentials cid).issuer = id →
          ∃ r, verifyCredential s' now cid = .ok r ∧ r.isValid = false) := by
  refine ⟨_, removeIssuer_reduce s sender id hown hreg,
    by simp, by simp, rfl, rfl, rfl, rfl, rfl, ?_,
    by simp, by simp, by simp, by simp, ?_⟩
  · intro a ha
    exact ⟨upd_other _ _ _ _ ha, upd_other _ _ _ _ ha⟩
  · intro now cid hex hiss
    refine ⟨_, verifyCredential_reduce _ now cid hex, ?_⟩
    simp [hiss]

/-- C7 witness: the owner `1` deactivates issuer `2` in `ws`; the flags flip,
nothing else moves, and credential `100` (issued by `2`) now verifies with
`isValid = false`. -/
theorem removeIssuer_deauthorizes_witness :
    (1 : Nat) = ws.owner
    ∧ ws.authorizedIssuers 2 = true
    ∧ (∃ s', removeIssuer ws 1 2 = .ok s'
        ∧ s'.authorizedIssuers 2 = false
        ∧ (s'.issuers 2).isActive = false
        ∧ s'.credentials = ws.credentials
        ∧ s'.studentCredentials = ws.studentCredentials
        ∧ s'.issuerCredentials = ws.issuerCredentials
        ∧ s'.paused = ws.paused
        ∧ s'.owner = ws.owner
        ∧ (∀ a, a ≠ 2 → s'.authorizedIssuers a = ws.authorizedIssuers a
            ∧ s'.issuers a = ws.issuers a)
        ∧ (s'.issuers 2).name = (ws.issuers 2).name
        ∧ (s'.issuers 2).country = (ws.issuers 2).country
        ∧ (s'.issuers 2).registrationDate = (ws.issuers 2).registrationDate
        ∧ (s'.issuers 2).credentialsIssued = (ws.issuers 2).credentialsIssued
        ∧ (∀ now cid, (ws.credentials cid).exists_ = true →
            (ws.credentials cid).issuer = 2 →
            ∃ r, verifyCredential s' now cid = .ok r ∧ r.isValid = false)) :=
  ⟨rfl, rfl, removeIssuer_deauthorizes ws 1 2 rfl rfl⟩

/-- C8: on an existing, not-yet-revoked credential with the system not
paused, `revokeCredential` succeeds exactly when the caller is the recorded
issuer or the owner, and every other caller fails `Unauthorized`. -/
theorem revokeCredential_eligibility (s : State) (sender id : Nat)
    (hex : (s.credentials id).exists_ = true)
    (hnr : (s.credentials id).isRevoked = false)
    (hp : s.paused = false) :
    ((∃ s', revokeCredential s sender id = .ok s') ↔
      ((s.credentials id).issuer = sender ∨ sender = s.owner))
    ∧ (¬((s.credentials id).issuer = sender ∨ sender = s.owner) →
      revokeCredential s sender id = .error .Unauthorized) := by
  by_cases helig : (s.credentials id).issuer = sender ∨ sender = s.owner
  · refine ⟨⟨fun _ => helig, fun _ => ?_⟩, fun h => absurd helig h⟩
    refine ⟨{ s with credentials :=
        (upd s.credentials id { s.credentials id with isRevoked := true }) }, ?_⟩
    rcases helig with h | h <;> simp [revokeCredential, hex, hp, hnr, h]
  · have herr : revokeCredential s sender id = .error .Unauthorized := by
      simp [revokeCredential, hex, hp, helig]
    refine ⟨⟨?_, fun h => absurd h helig⟩, fun _ => herr⟩
    rintro ⟨s', hs'⟩
    rw [herr] at hs'
    exact Except.noConfusion hs'

/-- C8 witness: the owner `1` may revoke credential `100` of `ws` (it was
issued by `2`), and the stranger `7` — neither recorded issuer nor owner —
fails `Unauthorized`. -/
theorem revokeCredential_eligibility_witness :
    (ws.credentials 100).exists_ = true
    ∧ (ws.credentials 100).isRevoked = false
    ∧ ws.paused = false
    ∧ ((∃ s', revokeCredential ws 1 100 = .ok s') ↔
        ((ws.credentials 100).issuer = 1 ∨ (1 : Nat) = ws.owner))
    ∧ (¬((ws.credentials 100).issuer = 7 ∨ (7 : Nat) = ws.owner) →
        revokeCredential ws 7 100 = .error .Unauthorized) :=
  ⟨rfl, rfl, rfl,
    (revokeCredential_eligibility ws 1 100 rfl rfl rfl).1,
    (revokeCredential_eligibility ws 7 100 rfl rfl rfl).2⟩

/-- C10: after the owner deactivates a registered issuer with `removeIssuer`,
a subsequent `addIssuer` on the same identity succeeds, overwriting the
issuer record with a fresh registration timestamp and a zero issued-count and
restoring authorization and the active flag, while credentials are untouched;
every prior non-revoked, non-expired credential of that issuer then verifies
with `isValid = true` again. -/
theorem readd_issuer_restores_validity (s : State)
    (sender now2 id : Nat) (name country : String)
    (hown : sender = s.owner) (hreg : s.authorizedIssuers id = true)
    (hid : id ≠ 0) (hname : name.length ≠ 0) :
    ∃ s1, removeIssuer s sender id = .ok s1
      ∧ ∃ s2, addIssuer s1 sender now2 id name country = .ok s2
        ∧ s2.authorizedIssuers id = true
        ∧ s2.issuers id =
            { name := name, country := country, isActive := true
              registrationDate := now2, credentialsIssued := 0 }
        ∧ s2.credentials = s.credentials
        ∧ (∀ now3 cid, (s.credentials cid).exists_ = true →
            (s.credentials cid).issuer = id →
            (s.credentials cid).isRevoked = false →
            ((s.credentials cid).expiryDate = 0
              ∨ now3 ≤ (s.credentials cid).expiryDate) →
            ∃ r, verifyCredential s2 now3 cid = .ok r ∧ r.isValid = true) := by
  refine ⟨_, removeIssuer_reduce s sender id hown hreg, ?_⟩
  refine ⟨_, addIssuer_reduce _ sender now2 id name country hown hid hname
    (by simp), by simp, by simp, rfl, ?_⟩
  intro now3 cid hex hiss hnr hexp
  refine ⟨_, verifyCredential_reduce _ now3 cid hex, ?_⟩
  rcases hexp with h | h
  · simp [hiss, hnr, h]
  · simp [hiss, hnr, decide_eq_false (Nat.not_lt.mpr h)]

/-- C10 witness: owner `1` removes and re-registers issuer `2` in `ws`; the
record is overwritten with timestamp `30` and count `0`, and credential `100`
verifies valid again at time `20`. -/
theorem readd_issuer_restores_validity_witness :
    (1 : Nat) = ws.owner
    ∧ ws.authorizedIssuers 2 = true
    ∧ (2 : Nat) ≠ 0
    ∧ "NewUni".length ≠ 0
    ∧ (∃ s1, removeIssuer ws 1 2 = .ok s1
        ∧ ∃ s2, addIssuer s1 1 30 2 "NewUni" "US" = .ok s2
          ∧ s2.authorizedIssuers 2 = true
          ∧ s2.issuers 2 =
              { name := "NewUni", country := "US", isActive := true
                registrationDate := 30, credentialsIssued := 0 }
          ∧ s2.credentials = ws.credentials
          ∧ (∀ now3 cid, (ws.credentials cid).exists_ = true →
              (ws.credentials cid).issuer = 2 →
              (ws.credentials cid).isRevoked = false →
              ((ws.credentials cid).expiryDate = 0
                ∨ now3 ≤ (ws.credentials cid).expiryDate) →
              ∃ r, verifyCredential s2 now3 cid = .ok r
                ∧ r.isValid = true)) :=
  ⟨rfl, rfl, by decide, by decide,
    readd_issuer_restores_validity ws 1 30 2 "NewUni" "US" rfl rfl
      (by decide) (by decide)⟩

end DACV
